import Mathlib

/-!
Shallow embedding of the flare query-engine kernel: the expression
evaluator from src/expr.rs and the pull-based pipeline stages from
src/api.rs. Machine integers (Rust i64, the platform width) are
modelled as Lean Int with explicit wrapping at 2^64 where the Rust
operator wraps, and explicit error results where the Rust operator
panics. Panics are modelled as the error branch of Except.
-/

deriving instance DecidableEq for Except

namespace Flare

/-- Modelled from the spec: Datum lives in src/row.rs, which is not part of
the sources provided; per the spec it is a tagged scalar, either a signed
platform-width integer (64-bit) or a boolean. -/
inductive Datum where
  | INT (i : Int)
  | BOOL (b : Bool)
deriving DecidableEq, Repr

/-- Modelled from the spec: Row lives in src/row.rs, which is not part of
the sources provided; per the spec it is an ordered, fixed-arity tuple of
Datum values addressed by zero-based index. -/
def Row : Type := List Datum

/-- Evaluator panic outcomes, one constructor per distinct panic site
reachable from Expr::eval. -/
inductive EvalErr where
  | oobColumn
  | unresolvedArith
  | unresolvedRel
  | divByZero
  | divOverflow
deriving DecidableEq, Repr

/-- Modelled from the spec: get_column lives in src/row.rs, which is not
part of the sources provided; per the spec it returns a copy of the value
at the index and fails fatally when the index is at or beyond the arity. -/
def get_column (row : Row) (index : Nat) : Except EvalErr Datum :=
  if h : index < row.length then Except.ok (row.get ⟨index, h⟩)
  else Except.error EvalErr.oobColumn

/-- ArithOp from src/expr.rs. -/
inductive ArithOp where
  | Add
  | Sub
  | Mul
  | Div
deriving DecidableEq, Repr

/-- RelOp from src/expr.rs. -/
inductive RelOp where
  | Eq
  | Ne
  | Gt
  | Ge
  | Lt
  | Le
deriving DecidableEq, Repr

/-- Expr from src/expr.rs (boxes erased; LogOp is declared in the source
but no Expr constructor carries it, so it does not appear here). -/
inductive Expr where
  | CID (cid : Nat)
  | Literal (lit : Datum)
  | ArithExpr (lhs : Expr) (op : ArithOp) (rhs : Expr)
  | RelExpr (lhs : Expr) (op : RelOp) (rhs : Expr)
deriving DecidableEq, Repr

/-- Two's-complement wrap into the signed 64-bit range, the value Rust's
i64 +, - and * produce with overflow checks disabled (the profile the
spec's two's-complement wording describes). -/
def wrap64 (n : Int) : Int := (n + 2 ^ 63) % 2 ^ 64 - 2 ^ 63

/-- The signed 64-bit range of Datum integers. -/
def isI64 (n : Int) : Prop := -(2 ^ 63) ≤ n ∧ n < 2 ^ 63

instance (n : Int) : Decidable (isI64 n) := by unfold isI64; infer_instance

/-- Expr::eval from src/expr.rs. Rust i64 `/` panics on a zero divisor and
on i64::MIN / -1 in every build profile; both panics are explicit error
branches here. The catch-all match arms are the two `panic!` sites for
operands that are not both integers. -/
def eval : Expr → Row → Except EvalErr Datum
  | Expr.CID cid, row => get_column row cid
  | Expr.Literal lit, _ => Except.ok lit
  | Expr.ArithExpr b1 op b2, row =>
    match eval b1 row with
    | Except.error e => Except.error e
    | Except.ok d1 =>
      match eval b2 row with
      | Except.error e => Except.error e
      | Except.ok d2 =>
        match d1, op, d2 with
        | Datum.INT i1, ArithOp.Add, Datum.INT i2 =>
            Except.ok (Datum.INT (wrap64 (i1 + i2)))
        | Datum.INT i1, ArithOp.Sub, Datum.INT i2 =>
            Except.ok (Datum.INT (wrap64 (i1 - i2)))
        | Datum.INT i1, ArithOp.Mul, Datum.INT i2 =>
            Except.ok (Datum.INT (wrap64 (i1 * i2)))
        | Datum.INT i1, ArithOp.Div, Datum.INT i2 =>
            if i2 = 0 then Except.error EvalErr.divByZero
            else if i1 = -(2 ^ 63) ∧ i2 = -1 then Except.error EvalErr.divOverflow
            else Except.ok (Datum.INT (Int.tdiv i1 i2))
        | _, _, _ => Except.error EvalErr.unresolvedArith
  | Expr.RelExpr b1 op b2, row =>
    match eval b1 row with
    | Except.error e => Except.error e
    | Except.ok d1 =>
      match eval b2 row with
      | Except.error e => Except.error e
      | Except.ok d2 =>
        match d1, op, d2 with
        | Datum.INT i1, RelOp.Eq, Datum.INT i2 =>
            Except.ok (Datum.BOOL (decide (i1 = i2)))
        | Datum.INT i1, RelOp.Ne, Datum.INT i2 =>
            Except.ok (Datum.BOOL (decide (i1 ≠ i2)))
        | Datum.INT i1, RelOp.Le, Datum.INT i2 =>
            Except.ok (Datum.BOOL (decide (i1 ≤ i2)))
        | Datum.INT i1, RelOp.Lt, Datum.INT i2 =>
            Except.ok (Datum.BOOL (decide (i1 < i2)))
        | Datum.INT i1, RelOp.Ge, Datum.INT i2 =>
            Except.ok (Datum.BOOL (decide (i1 ≥ i2)))
        | Datum.INT i1, RelOp.Gt, Datum.INT i2 =>
            Except.ok (Datum.BOOL (decide (i1 > i2)))
        | _, _, _ => Except.error EvalErr.unresolvedRel

/-- The `impl ops::Add for Expr` from src/expr.rs. -/
def Expr.add (self other : Expr) : Expr :=
  Expr.ArithExpr self ArithOp.Add other

/-- The `impl ops::Sub for Expr` from src/expr.rs. -/
def Expr.sub (self other : Expr) : Expr :=
  Expr.ArithExpr self ArithOp.Sub other

/-- The `impl ops::Mul for Expr` from src/expr.rs. -/
def Expr.mul (self other : Expr) : Expr :=
  Expr.ArithExpr self ArithOp.Mul other

/-- The `impl ops::Div for Expr` from src/expr.rs. -/
def Expr.div (self other : Expr) : Expr :=
  Expr.ArithExpr self ArithOp.Div other

/-- Whether a Datum carries the integer variant. -/
def Datum.isInt : Datum → Bool
  | Datum.INT _ => true
  | Datum.BOOL _ => false

/-- One pull from the underlying line iterator of a source stage: a line
read successfully, or a per-record read failure (io::Result::Err). -/
inductive LineResult where
  | ok (s : String)
  | err
deriving DecidableEq, Repr

/-- TextFileRDD from src/api.rs; the io::Lines iterator is modelled as the
list of read outcomes it has yet to yield. -/
structure TextFileRDD where
  filename : String
  iter : List LineResult
deriving DecidableEq, Repr

/-- TextFileRDD::next from src/api.rs: pull one element from the iterator;
`e.ok()` maps a read failure to None, which is also the end-of-stream
signal. State passing replaces `&mut self`. -/
def TextFileRDD.next (self : TextFileRDD) : Option String × TextFileRDD :=
  match self.iter with
  | [] => (none, self)
  | e :: rest =>
    (match e with
     | LineResult.ok s => some s
     | LineResult.err => none,
     TextFileRDD.mk self.filename rest)

/-- The state component of one TextFileRDD::next call. -/
def TextFileRDD.nextState (self : TextFileRDD) : TextFileRDD :=
  (TextFileRDD.next self).2

/-- MapRDD from src/api.rs. -/
structure MapRDD (F R : Type) where
  mapfn : F
  source : R
deriving Repr

/-- RDDBase::map from src/api.rs: attach a transformation function to a
stage, producing a MapRDD wrapping it. -/
def RDDBase.map {α β R : Type} (self : R) (mapfn : α → β) : MapRDD (α → β) R :=
  MapRDD.mk mapfn self

/-- MapRDD::next from src/api.rs: the body is `unimplemented!()`, a panic
on every call; the panic is the Except error branch. -/
def MapRDD.next {α β σ : Type} (_self : MapRDD (α → β) σ) :
    Except String (Option β × MapRDD (α → β) σ) :=
  Except.error "not implemented"

/-- Wrapping into the signed 64-bit range always lands in that range and
differs from the wrapped value by a multiple of 2^64. -/
lemma wrap64_spec (n : Int) : isI64 (wrap64 n) ∧ (2 ^ 64 : Int) ∣ (n - wrap64 n) := by
  unfold isI64 wrap64
  omega

/-- C1: evaluating a relational node over two integer literals against any
row yields the boolean Datum of the corresponding integer comparison, for
each of the six relational operators. -/
theorem rel_literal_correct (a b : Int) (row : Row) :
    eval (Expr.RelExpr (Expr.Literal (Datum.INT a)) RelOp.Eq
      (Expr.Literal (Datum.INT b))) row = Except.ok (Datum.BOOL (decide (a = b))) ∧
    eval (Expr.RelExpr (Expr.Literal (Datum.INT a)) RelOp.Ne
      (Expr.Literal (Datum.INT b))) row = Except.ok (Datum.BOOL (decide (a ≠ b))) ∧
    eval (Expr.RelExpr (Expr.Literal (Datum.INT a)) RelOp.Gt
      (Expr.Literal (Datum.INT b))) row = Except.ok (Datum.BOOL (decide (a > b))) ∧
    eval (Expr.RelExpr (Expr.Literal (Datum.INT a)) RelOp.Ge
      (Expr.Literal (Datum.INT b))) row = Except.ok (Datum.BOOL (decide (a ≥ b))) ∧
    eval (Expr.RelExpr (Expr.Literal (Datum.INT a)) RelOp.Lt
      (Expr.Literal (Datum.INT b))) row = Except.ok (Datum.BOOL (decide (a < b))) ∧
    eval (Expr.RelExpr (Expr.Literal (Datum.INT a)) RelOp.Le
      (Expr.Literal (Datum.INT b))) row = Except.ok (Datum.BOOL (decide (a ≤ b))) :=
  ⟨rfl, rfl, rfl, rfl, rfl, rfl⟩

/-- C2 counterexample: the divisor -1 is nonzero, yet dividing the
minimum 64-bit integer by it does not return the truncated quotient — it
fails with the division-overflow panic, because the quotient 2^63 is not
representable in i64. -/
theorem div_min_by_neg_one_panics :
    (-1 : Int) ≠ 0 ∧
    eval (Expr.ArithExpr (Expr.Literal (Datum.INT (-(2 ^ 63)))) ArithOp.Div
      (Expr.Literal (Datum.INT (-1)))) [] = Except.error EvalErr.divOverflow ∧
    eval (Expr.ArithExpr (Expr.Literal (Datum.INT (-(2 ^ 63)))) ArithOp.Div
      (Expr.Literal (Datum.INT (-1)))) []
      ≠ Except.ok (Datum.INT (Int.tdiv (-(2 ^ 63)) (-1))) := by
  refine ⟨by decide, rfl, ?_⟩
  intro h
  exact absurd h (by decide)

/-- C2 (amended): dividing integer literals with a nonzero divisor, other
than the overflowing pair (minimum 64-bit integer, -1), returns the
quotient truncated toward zero; a zero divisor fails with the
division-by-zero panic. -/
theorem div_literal_correct (a b : Int) (row : Row) :
    (b ≠ 0 → ¬(a = -(2 ^ 63) ∧ b = -1) →
      eval (Expr.ArithExpr (Expr.Literal (Datum.INT a)) ArithOp.Div
        (Expr.Literal (Datum.INT b))) row = Except.ok (Datum.INT (Int.tdiv a b))) ∧
    eval (Expr.ArithExpr (Expr.Literal (Datum.INT a)) ArithOp.Div
      (Expr.Literal (Datum.INT 0))) row = Except.error EvalErr.divByZero := by
  constructor
  · intro hb hmin
    show (if b = 0 then Except.error EvalErr.divByZero
          else if a = -(2 ^ 63) ∧ b = -1 then Except.error EvalErr.divOverflow
          else Except.ok (Datum.INT (Int.tdiv a b))) = _
    rw [if_neg hb, if_neg hmin]
  · rfl

/-- C2 witness: 7 divided by -2 truncates toward zero to -3, and 7
divided by the zero literal fails with the division-by-zero panic. -/
theorem div_literal_correct_witness :
    eval (Expr.ArithExpr (Expr.Literal (Datum.INT 7)) ArithOp.Div
      (Expr.Literal (Datum.INT (-2)))) [] = Except.ok (Datum.INT (Int.tdiv 7 (-2))) ∧
    Int.tdiv 7 (-2) = -3 ∧
    eval (Expr.ArithExpr (Expr.Literal (Datum.INT 7)) ArithOp.Div
      (Expr.Literal (Datum.INT 0))) [] = Except.error EvalErr.divByZero :=
  ⟨(div_literal_correct 7 (-2) []).1 (by decide) (by decide), by decide,
   (div_literal_correct 7 (-2) []).2⟩

/-- C3: Add, Sub and Mul over integer literals return the integer Datum of
the two's-complement result: a value in the signed 64-bit range congruent
to the mathematical result modulo 2^64, for every input including those
whose mathematical result overflows. -/
theorem arith_literal_wraps (a b : Int) (row : Row) :
    (eval (Expr.ArithExpr (Expr.Literal (Datum.INT a)) ArithOp.Add
       (Expr.Literal (Datum.INT b))) row = Except.ok (Datum.INT (wrap64 (a + b))) ∧
     isI64 (wrap64 (a + b)) ∧ (2 ^ 64 : Int) ∣ (a + b - wrap64 (a + b))) ∧
    (eval (Expr.ArithExpr (Expr.Literal (Datum.INT a)) ArithOp.Sub
       (Expr.Literal (Datum.INT b))) row = Except.ok (Datum.INT (wrap64 (a - b))) ∧
     isI64 (wrap64 (a - b)) ∧ (2 ^ 64 : Int) ∣ (a - b - wrap64 (a - b))) ∧
    (eval (Expr.ArithExpr (Expr.Literal (Datum.INT a)) ArithOp.Mul
       (Expr.Literal (Datum.INT b))) row = Except.ok (Datum.INT (wrap64 (a * b))) ∧
     isI64 (wrap64 (a * b)) ∧ (2 ^ 64 : Int) ∣ (a * b - wrap64 (a * b))) :=
  ⟨⟨rfl, wrap64_spec (a + b)⟩, ⟨rfl, wrap64_spec (a - b)⟩, ⟨rfl, wrap64_spec (a * b)⟩⟩

/-- C4: when both operands of an arithmetic or relational node evaluate to
Datums and at least one is not an integer, the node fails with the
corresponding unresolved-operand panic rather than coercing or returning a
result. -/
theorem nonint_operand_panics (e1 e2 : Expr) (row : Row) (d1 d2 : Datum)
    (aop : ArithOp) (rop : RelOp)
    (h1 : eval e1 row = Except.ok d1) (h2 : eval e2 row = Except.ok d2)
    (h3 : d1.isInt = false ∨ d2.isInt = false) :
    eval (Expr.ArithExpr e1 aop e2) row = Except.error EvalErr.unresolvedArith ∧
    eval (Expr.RelExpr e1 rop e2) row = Except.error EvalErr.unresolvedRel := by
  constructor
  · simp only [eval, h1, h2]
    cases d1 <;> cases d2 <;> cases aop <;> simp_all [Datum.isInt]
  · simp only [eval, h1, h2]
    cases d1 <;> cases d2 <;> cases rop <;> simp_all [Datum.isInt]

/-- C4 witness: adding a boolean literal to an integer literal fails with
the arithmetic unresolved-operand panic, and comparing them fails with the
relational one. -/
theorem nonint_operand_panics_witness :
    eval (Expr.ArithExpr (Expr.Literal (Datum.BOOL true)) ArithOp.Add
      (Expr.Literal (Datum.INT 1))) [] = Except.error EvalErr.unresolvedArith ∧
    eval (Expr.RelExpr (Expr.Literal (Datum.BOOL true)) RelOp.Eq
      (Expr.Literal (Datum.INT 1))) [] = Except.error EvalErr.unresolvedRel :=
  nonint_operand_panics (Expr.Literal (Datum.BOOL true)) (Expr.Literal (Datum.INT 1))
    [] (Datum.BOOL true) (Datum.INT 1) ArithOp.Add RelOp.Eq rfl rfl (Or.inl rfl)

/-- C5: a column reference in bounds evaluates to a copy of the row's
Datum at that index, and one at or beyond the row's arity fails with the
out-of-bounds panic. -/
theorem cid_eval_get_column (row : Row) (i : Nat) :
    (row.length ≤ i → eval (Expr.CID i) row = Except.error EvalErr.oobColumn) ∧
    ∀ (h : i < row.length), eval (Expr.CID i) row = Except.ok (row.get ⟨i, h⟩) := by
  constructor
  · intro hle
    show get_column row i = _
    unfold get_column
    rw [dif_neg (by omega)]
  · intro h
    show get_column row i = _
    unfold get_column
    rw [dif_pos h]

/-- C5 witness: against the row [INT 3, INT 7] of arity 2, CID 5 fails
with the out-of-bounds panic and CID 1 returns INT 7. -/
theorem cid_eval_get_column_witness :
    eval (Expr.CID 5) [Datum.INT 3, Datum.INT 7] = Except.error EvalErr.oobColumn ∧
    eval (Expr.CID 1) [Datum.INT 3, Datum.INT 7] = Except.ok (Datum.INT 7) := by
  refine ⟨(cid_eval_get_column [Datum.INT 3, Datum.INT 7] 5).1 (by decide), ?_⟩
  have h := (cid_eval_get_column [Datum.INT 3, Datum.INT 7] 1).2 (by decide)
  simpa using h

/-- C6: the example expression (CID 0 + CID 1) > 30 evaluates to
BOOL false against [INT 3, INT 7] and to BOOL true against
[INT 20, INT 15]. -/
theorem projection_example :
    eval (Expr.RelExpr (Expr.ArithExpr (Expr.CID 0) ArithOp.Add (Expr.CID 1))
      RelOp.Gt (Expr.Literal (Datum.INT 30))) [Datum.INT 3, Datum.INT 7]
      = Except.ok (Datum.BOOL false) ∧
    eval (Expr.RelExpr (Expr.ArithExpr (Expr.CID 0) ArithOp.Add (Expr.CID 1))
      RelOp.Gt (Expr.Literal (Datum.INT 30))) [Datum.INT 20, Datum.INT 15]
      = Except.ok (Datum.BOOL true) := by
  decide

/-- C7: the first next() call on a map stage over a one-record source
panics with the unimplemented-code message instead of yielding the mapped
record; every MapRDD::next call does, since its body is a bare
`unimplemented!()`. -/
theorem maprdd_next_unimplemented :
    MapRDD.next (RDDBase.map (TextFileRDD.mk "f" [LineResult.ok "ab"]) String.length)
      = Except.error "not implemented" :=
  rfl

/-- C8 counterexample: on a source whose first read fails and whose second
read yields "x", the first next() call returns the end-of-stream signal
and the second returns the record "x" — the stream resumes after
end-of-stream. -/
theorem eos_then_record_counterexample :
    (TextFileRDD.next (TextFileRDD.mk "f" [LineResult.err, LineResult.ok "x"])).1
      = none ∧
    (TextFileRDD.next
      (TextFileRDD.next (TextFileRDD.mk "f" [LineResult.err, LineResult.ok "x"])).2).1
      = some "x" :=
  ⟨rfl, rfl⟩

/-- C8 (amended): on a source none of whose pending reads fails, once
next() returns end-of-stream every later call also returns end-of-stream. -/
theorem eos_idempotent_ok_source (s : TextFileRDD)
    (hok : ∀ r ∈ s.iter, r ≠ LineResult.err)
    (heos : (TextFileRDD.next s).1 = none) :
    ∀ k, (TextFileRDD.next (TextFileRDD.nextState^[k] s)).1 = none := by
  have hnil : s.iter = [] := by
    cases hs : s.iter with
    | nil => rfl
    | cons e rest =>
      cases e with
      | ok str =>
        exfalso
        simp [TextFileRDD.next, hs] at heos
      | err =>
        exact absurd rfl (hok LineResult.err (by rw [hs]; exact List.mem_cons_self _ _))
  have hfix : TextFileRDD.nextState s = s := by
    simp [TextFileRDD.nextState, TextFileRDD.next, hnil]
  intro k
  induction k with
  | zero => simpa using heos
  | succ n ih =>
    rw [Function.iterate_succ_apply, hfix]
    exact ih

/-- C8 witness: on the already-exhausted source with no pending reads, the
call after two further next() calls still returns end-of-stream. -/
theorem eos_idempotent_ok_source_witness :
    (TextFileRDD.next (TextFileRDD.nextState^[2] (TextFileRDD.mk "f" []))).1 = none :=
  eos_idempotent_ok_source (TextFileRDD.mk "f" []) (by simp) rfl 2

/-- C9: when the next pending read fails, next() returns the
end-of-stream signal for that call and consumes exactly that one failed
read from the iterator. -/
theorem read_error_yields_eos (s : TextFileRDD) (rest : List LineResult)
    (h : s.iter = LineResult.err :: rest) :
    (TextFileRDD.next s).1 = none ∧ (TextFileRDD.next s).2.iter = rest := by
  obtain ⟨fn, it⟩ := s
  cases h
  exact ⟨rfl, rfl⟩

/-- C9 witness: a source whose first read fails returns end-of-stream on
that call, leaving the remaining read pending. -/
theorem read_error_yields_eos_witness :
    (TextFileRDD.next (TextFileRDD.mk "g" [LineResult.err, LineResult.ok "y"])).1
      = none ∧
    (TextFileRDD.next (TextFileRDD.mk "g" [LineResult.err, LineResult.ok "y"])).2.iter
      = [LineResult.ok "y"] :=
  read_error_yields_eos (TextFileRDD.mk "g" [LineResult.err, LineResult.ok "y"])
    [LineResult.ok "y"] rfl

/-- C10: the four infix operator implementations build exactly the
corresponding ArithExpr trees, so evaluating an infix-built tree against
any row equals evaluating the explicit ArithExpr. -/
theorem infix_builds_arith (a b : Expr) (row : Row) :
    (Expr.add a b = Expr.ArithExpr a ArithOp.Add b ∧
     eval (Expr.add a b) row = eval (Expr.ArithExpr a ArithOp.Add b) row) ∧
    (Expr.sub a b = Expr.ArithExpr a ArithOp.Sub b ∧
     eval (Expr.sub a b) row = eval (Expr.ArithExpr a ArithOp.Sub b) row) ∧
    (Expr.mul a b = Expr.ArithExpr a ArithOp.Mul b ∧
     eval (Expr.mul a b) row = eval (Expr.ArithExpr a ArithOp.Mul b) row) ∧
    (Expr.div a b = Expr.ArithExpr a ArithOp.Div b ∧
     eval (Expr.div a b) row = eval (Expr.ArithExpr a ArithOp.Div b) row) :=
  ⟨⟨rfl, rfl⟩, ⟨rfl, rfl⟩, ⟨rfl, rfl⟩, ⟨rfl, rfl⟩⟩

end Flare
